import Mathlib

/-!
Verification of the user-manager API core logic (`user_manager/models.py` and
`user_manager/api/v1/views.py`) against its specification.

The embedding models:
* `User` records and a user database as a `List User`;
* the `UserManagerRole` model with its `clean`/`save` validation;
* `ManagerReportsListView.process_report` and the bulk-create loop of
  `ManagerReportsListView.perform_create` together with
  `BulkCreateMixin.create`'s response shaping;
* `UserManagerListView.perform_create`;
* the queryset filter helpers `_filter_by_manager_id_or_email` and
  `_filter_by_user_id_or_email`, with a queryset modelled as a
  `List UserManagerRole`.

Python truthiness of optional strings (`None` and `""` are falsy) is modelled
explicitly, since `process_report` relies on `email or username` and
`if not identifier`.
-/

deriving instance DecidableEq for Except

namespace UserManager

/-- Python's `c in s` membership test on a string, as a scan of its
characters. -/
def pyIn (c : Char) (s : String) : Bool :=
  s.data.contains c

/-- A registered user account (`django.contrib.auth.models.User`): opaque
identity plus unique username and unique email. -/
structure User where
  id : Nat
  username : String
  email : String
deriving DecidableEq, Repr

/-- The `UserManagerRole` model: `user` is required, `manager_user` and
`unregistered_manager_email` are both nullable. The same shape serves as the
link data built by `process_report` before persistence (missing dict keys
become unset fields). -/
structure UserManagerRole where
  user : User
  manager_user : Option User
  unregistered_manager_email : Option String
deriving DecidableEq, Repr

/-- Errors surfaced by the views: DRF `ValidationError`, DRF `NotFound`
(with its `detail` message), and an uncaught `User.DoesNotExist`. -/
inductive Err where
  | validationError : String → Err
  | notFound : String → Err
  | doesNotExist : Err
deriving DecidableEq, Repr

/-- Python truthiness of an optional string: `None` and `""` are falsy. -/
def truthy : Option String → Bool
  | none => false
  | some s => !s.isEmpty

/-- Models `identifier = email or username` followed by
`if not identifier: raise ...` in `process_report`: returns the chosen
identifier when it is truthy, `none` when the check would raise. -/
def chooseIdentifier (email username : Option String) : Option String :=
  let ident := if truthy email then email else username
  if truthy ident then ident else none

/-- Modelled from the spec: `get_user_by_username_or_email` is defined in
`user_manager/utils.py`, which is not among the provided sources. Spec section
4.1 (Identifier Resolver): if the identifier contains `@`, look up by exact
email match, otherwise by exact username match; no match is a not-found
failure (here `none`, the caller sees `User.DoesNotExist`). -/
def get_user_by_username_or_email (db : List User) (identifier : String) : Option User :=
  if pyIn '@' identifier then
    db.find? (fun u => u.email == identifier)
  else
    db.find? (fun u => u.username == identifier)

/-- The manager-resolution half of `process_report` (views.py lines 398-412):
an `@` identifier is looked up by email, falling back to an unregistered
manager email; a username identifier must exist (`User.objects.get` raises
`User.DoesNotExist` otherwise, which is not caught). -/
def resolve_manager (db : List User) (user : User) (manager_id : String) :
    Except Err UserManagerRole :=
  if pyIn '@' manager_id then
    match db.find? (fun u => u.email == manager_id) with
    | some m => .ok ⟨user, some m, none⟩
    | none => .ok ⟨user, none, some manager_id⟩
  else
    match db.find? (fun u => u.username == manager_id) with
    | some m => .ok ⟨user, some m, none⟩
    | none => .error .doesNotExist

/-- `process_report` after the identifier has been chosen and found truthy:
resolve the managed user (`NotFound` on failure, naming the identifier), then
resolve the manager side. -/
def process_report_resolved (db : List User) (manager_id ident : String) :
    Except Err UserManagerRole :=
  match get_user_by_username_or_email db ident with
  | none => .error (.notFound ("No user with identifier: " ++ ident))
  | some user => resolve_manager db user manager_id

/-- `ManagerReportsListView.process_report` (views.py lines 379-412). -/
def process_report (db : List User) (manager_id : String)
    (username email : Option String) : Except Err UserManagerRole :=
  match chooseIdentifier email username with
  | none => .error (.validationError "A `username` or `email` must be specified")
  | some ident => process_report_resolved db manager_id ident

/-- One item of a bulk POST body: an object with optional `username` and
`email` keys for the managed user. -/
structure Item where
  username : Option String
  email : Option String
deriving DecidableEq, Repr

/-- The loop of the bulk branch of `ManagerReportsListView.perform_create`
(views.py lines 365-376): for each item run `process_report`; a `NotFound` is
recorded as an error detail and the loop continues; any other exception
propagates and aborts the whole request. Returns the built link data and the
collected error details, in input order. The final
`serializer.create(reports)` persistence step (line 377) is modelled
separately by `create_reports`. -/
def perform_create_bulk (db : List User) (manager_id : String) :
    List Item → Except Err (List UserManagerRole × List String)
  | [] => .ok ([], [])
  | item :: rest =>
    match process_report db manager_id item.username item.email with
    | .ok d =>
      match perform_create_bulk db manager_id rest with
      | .ok (rs, es) => .ok (d :: rs, es)
      | .error e => .error e
    | .error (.notFound m) =>
      match perform_create_bulk db manager_id rest with
      | .ok (rs, es) => .ok (rs, m :: es)
      | .error e => .error e
    | .error e => .error e

/-- The response produced by `BulkCreateMixin.create` in bulk mode: HTTP
status, the `results` collection, and the `errors` collection (each entry is
the `detail` string). -/
structure BulkResponseData where
  status : Nat
  results : List UserManagerRole
  errors : List String
deriving DecidableEq, Repr

/-- `UserManagerRole.clean` (models.py lines 82-89): reject a record whose
managed user is its own manager, either as the registered `manager_user` or
via a matching `unregistered_manager_email`. Python compares a `User` instance
against `None` (or a string against `None`) as unequal, which the `Option`
comparisons reproduce. -/
def clean (r : UserManagerRole) : Except String Unit :=
  if r.manager_user == some r.user || r.unregistered_manager_email == some r.user.email then
    .error "User cannot be own manager"
  else
    .ok ()

/-- The `validate_unique` part of `full_clean` for the two `unique_together`
constraints of the model (models.py lines 51-54); Django skips a unique check
when one of its fields is `None`. -/
def violates_unique (store : List UserManagerRole) (r : UserManagerRole) : Bool :=
  store.any (fun s =>
    (r.manager_user.isSome && s.user == r.user && s.manager_user == r.manager_user) ||
    (r.unregistered_manager_email.isSome && s.user == r.user &&
      s.unregistered_manager_email == r.unregistered_manager_email))

/-- `UserManagerRole.save` (models.py lines 65-70): `full_clean` (the model's
`clean` followed by the uniqueness validation) and then the insert. The store
is a list of persisted records; an error persists nothing. Field-format
validation (email syntax) is outside the claims and not modelled. -/
def role_save (store : List UserManagerRole) (r : UserManagerRole) :
    Except String (List UserManagerRole) :=
  match clean r with
  | .error m => .error m
  | .ok _ =>
    if violates_unique store r then .error "duplicate"
    else .ok (store ++ [r])

/-- Modelled from the spec: the serializer's bulk `create` invoked at
views.py line 377 lives in serializers.py, which is not among the provided
sources. Each built link is persisted through the model's `save`
(models.py: `save` runs `full_clean`; spec section 3: invariants are enforced
on every create; section 5: the batch is one atomic transaction, so a failure
commits nothing; section 7: an invariant violation at persistence time is
surfaced as a 400 validation failure that aborts the whole batch and is not
absorbed into the per-item error list). -/
def create_reports (store : List UserManagerRole) :
    List UserManagerRole → Except String (List UserManagerRole)
  | [] => .ok store
  | r :: rest =>
    match role_save store r with
    | .error m => .error m
    | .ok store2 => create_reports store2 rest

/-- `BulkCreateMixin.create` (views.py lines 100-116) for a list-shaped body,
together with the persistence step of the bulk `perform_create` (line 377):
run the loop, persist the built links, and shape the response. Status is 201,
downgraded to 202 exactly when per-item errors were collected; a persistence
failure aborts the request with the validation failure instead of producing a
response. -/
def bulk_create (db : List User) (store : List UserManagerRole) (manager_id : String)
    (items : List Item) : Except Err (BulkResponseData × List UserManagerRole) :=
  match perform_create_bulk db manager_id items with
  | .error e => .error e
  | .ok (rs, es) =>
    match create_reports store rs with
    | .error m => .error (.validationError m)
    | .ok store2 => .ok (⟨if es.isEmpty then 201 else 202, rs, es⟩, store2)

/-- `UserManagerListView.perform_create` (views.py lines 537-553): resolve the
path identifier to the managed user (`NotFound` with the fixed message
`No user with that email` on failure), then attach the manager by email,
falling back to an unregistered manager email. -/
def user_manager_perform_create (db : List User) (path_id manager_email : String) :
    Except Err UserManagerRole :=
  match get_user_by_username_or_email db path_id with
  | none => .error (.notFound "No user with that email")
  | some user =>
    match db.find? (fun u => u.email == manager_email) with
    | some m => .ok ⟨user, some m, none⟩
    | none => .ok ⟨user, none, some manager_email⟩

/-- `_filter_by_manager_id_or_email` (views.py lines 20-41). A Django filter
through the nullable `manager_user` relation excludes rows where it is null,
which `Option.any` reproduces. -/
def filter_by_manager_id_or_email (queryset : List UserManagerRole)
    (identifier : Option String) : List UserManagerRole :=
  match identifier with
  | none => queryset
  | some ident =>
    if pyIn '@' ident then
      queryset.filter (fun r =>
        r.manager_user.any (fun m => m.email == ident) ||
          r.unregistered_manager_email == some ident)
    else
      queryset.filter (fun r => r.manager_user.any (fun m => m.username == ident))

/-- `_filter_by_user_id_or_email` (views.py lines 44-60). -/
def filter_by_user_id_or_email (queryset : List UserManagerRole)
    (identifier : Option String) : List UserManagerRole :=
  match identifier with
  | none => queryset
  | some ident =>
    if pyIn '@' ident then
      queryset.filter (fun r => r.user.email == ident)
    else
      queryset.filter (fun r => r.user.username == ident)

/-- Classification of a bulk item: `process_report` succeeds on it. -/
def item_ok (db : List User) (manager_id : String) (i : Item) : Bool :=
  match process_report db manager_id i.username i.email with
  | .ok _ => true
  | .error _ => false

/-- Classification of a bulk item: `process_report` fails user resolution on
it (raises `NotFound`). -/
def item_resolution_fails (db : List User) (manager_id : String) (i : Item) : Bool :=
  match process_report db manager_id i.username i.email with
  | .error (.notFound _) => true
  | _ => false

/-- The error detail recorded for a bulk item that fails user resolution. -/
def item_error_detail (db : List User) (manager_id : String) (i : Item) : String :=
  match process_report db manager_id i.username i.email with
  | .error (.notFound m) => m
  | _ => ""

/-- Substring test used to express "the message names the identifier". -/
def listContainsSub (pat : List Char) : List Char → Bool
  | [] => pat.isPrefixOf []
  | c :: t => pat.isPrefixOf (c :: t) || listContainsSub pat t

/-- String containment: `pat` occurs contiguously in `s`. -/
def strContains (s pat : String) : Bool :=
  listContainsSub pat.data s.data

/-- Helper: a link built by `resolve_manager` has exactly one of the manager
fields set. -/
theorem resolve_manager_exactly_one (db : List User) (u : User) (manager_id : String)
    (r : UserManagerRole) (h : resolve_manager db u manager_id = .ok r) :
    r.manager_user.isSome = !r.unregistered_manager_email.isSome := by
  unfold resolve_manager at h
  split at h <;> split at h <;> simp_all <;> subst h <;> rfl

/-- Helper: every not-found failure of `process_report` has the message
`No user with identifier: ` followed by the chosen identifier. -/
theorem process_report_notFound_form (db : List User) (manager_id : String)
    (username email : Option String) (m : String)
    (h : process_report db manager_id username email = .error (.notFound m)) :
    ∃ ident, chooseIdentifier email username = some ident ∧
      m = "No user with identifier: " ++ ident := by
  unfold process_report at h
  split at h
  · exact absurd h (by simp)
  case h_2 ident hc =>
    unfold process_report_resolved at h
    split at h
    · refine ⟨ident, hc, ?_⟩
      simp at h
      exact h.symm
    · unfold resolve_manager at h
      split at h <;> split at h <;> simp_all

/-- Helper: an item on which `process_report` succeeds is not one that fails
user resolution. -/
theorem item_ok_not_fails (db : List User) (manager_id : String) (i : Item)
    (h : item_ok db manager_id i = true) :
    item_resolution_fails db manager_id i = false := by
  unfold item_ok at h
  unfold item_resolution_fails
  cases hp : process_report db manager_id i.username i.email with
  | ok d => simp
  | error e => rw [hp] at h; simp at h

/-- Helper: an item that fails user resolution is not one on which
`process_report` succeeds. -/
theorem item_fails_not_ok (db : List User) (manager_id : String) (i : Item)
    (h : item_resolution_fails db manager_id i = true) :
    item_ok db manager_id i = false := by
  unfold item_resolution_fails at h
  unfold item_ok
  cases hp : process_report db manager_id i.username i.email with
  | ok d => rw [hp] at h; simp at h
  | error e => simp

/-- Helper: when every item either succeeds or fails user resolution, the two
classifications partition the batch. -/
theorem filter_partition (db : List User) (manager_id : String) :
    ∀ items : List Item,
      (∀ i ∈ items, item_ok db manager_id i = true ∨
        item_resolution_fails db manager_id i = true) →
      (items.filter (fun i => item_ok db manager_id i)).length +
        (items.filter (fun i => item_resolution_fails db manager_id i)).length =
        items.length := by
  intro items
  induction items with
  | nil => intro _; rfl
  | cons item rest ih =>
    intro h
    have hr := ih (fun i hi => h i (List.mem_cons_of_mem _ hi))
    rcases h item (List.mem_cons_self _ _) with hok | hfail
    · have hnf := item_ok_not_fails db manager_id item hok
      simp only [List.filter_cons, hok, hnf]
      simp
      omega
    · have hno := item_fails_not_ok db manager_id item hfail
      simp only [List.filter_cons, hfail, hno]
      simp
      omega

/-- Helper: an item that fails user resolution records the not-found detail
`No user with identifier: ` followed by that item's chosen identifier. -/
theorem item_error_detail_form (db : List User) (manager_id : String) (i : Item)
    (h : item_resolution_fails db manager_id i = true) :
    ∃ ident, chooseIdentifier i.email i.username = some ident ∧
      item_error_detail db manager_id i = "No user with identifier: " ++ ident := by
  unfold item_resolution_fails at h
  cases hp : process_report db manager_id i.username i.email with
  | ok d => rw [hp] at h; simp at h
  | error e =>
    cases e with
    | notFound m =>
      obtain ⟨ident, hc, hm⟩ :=
        process_report_notFound_form db manager_id i.username i.email m hp
      refine ⟨ident, hc, ?_⟩
      simp [item_error_detail, hp, hm]
    | validationError s => rw [hp] at h; simp at h
    | doesNotExist => rw [hp] at h; simp at h

/-- Helper: characterization of the bulk loop when every item either succeeds
or fails user resolution: it returns the built links together with exactly
the failing items' not-found details, in input order. -/
theorem perform_create_bulk_ok (db : List User) (manager_id : String) :
    ∀ items : List Item,
      (∀ i ∈ items, item_ok db manager_id i = true ∨
        item_resolution_fails db manager_id i = true) →
      ∃ rs, perform_create_bulk db manager_id items =
          .ok (rs, (items.filter (fun i => item_resolution_fails db manager_id i)).map
            (item_error_detail db manager_id)) ∧
        rs.length = (items.filter (fun i => item_ok db manager_id i)).length := by
  intro items
  induction items with
  | nil => exact fun _ => ⟨[], rfl, rfl⟩
  | cons item rest ih =>
    intro h
    obtain ⟨rs, heq, hrs⟩ := ih (fun i hi => h i (List.mem_cons_of_mem _ hi))
    cases hp : process_report db manager_id item.username item.email with
    | ok d =>
      have hok : item_ok db manager_id item = true := by simp [item_ok, hp]
      have hnf : item_resolution_fails db manager_id item = false := by
        simp [item_resolution_fails, hp]
      refine ⟨d :: rs, ?_, ?_⟩
      · simp only [List.filter_cons, hnf, Bool.false_eq_true, if_false]
        simp only [perform_create_bulk, hp, heq]
      · simp [List.filter_cons, hok, hrs]
    | error e =>
      cases e with
      | notFound m =>
        have hok : item_ok db manager_id item = false := by simp [item_ok, hp]
        have hnf : item_resolution_fails db manager_id item = true := by
          simp [item_resolution_fails, hp]
        have hdet : item_error_detail db manager_id item = m := by
          simp [item_error_detail, hp]
        refine ⟨rs, ?_, ?_⟩
        · simp only [List.filter_cons, hnf, if_true, List.map_cons, hdet]
          simp only [perform_create_bulk, hp, heq]
        · simp [List.filter_cons, hok, hrs]
      | validationError s =>
        have := h item (List.mem_cons_self _ _)
        simp [item_ok, item_resolution_fails, hp] at this
      | doesNotExist =>
        have := h item (List.mem_cons_self _ _)
        simp [item_ok, item_resolution_fails, hp] at this

/-- Helper: an error result of the bulk loop on a suffix propagates through
any prefix of items that each succeed or fail user resolution. -/
theorem perform_create_bulk_append_error (db : List User) (manager_id : String)
    (tail : List Item) (e : Err)
    (htail : perform_create_bulk db manager_id tail = .error e) :
    ∀ pre : List Item,
      (∀ p ∈ pre, item_ok db manager_id p = true ∨
        item_resolution_fails db manager_id p = true) →
      perform_create_bulk db manager_id (pre ++ tail) = .error e := by
  intro pre
  induction pre with
  | nil => intro _; simpa using htail
  | cons p t ih =>
    intro hpre
    have ht := ih (fun q hq => hpre q (List.mem_cons_of_mem _ hq))
    have ht2 : perform_create_bulk db manager_id (t.append tail) = Except.error e := ht
    rcases hpre p (List.mem_cons_self _ _) with hok | hfail
    · unfold item_ok at hok
      cases hq : process_report db manager_id p.username p.email with
      | error e2 => rw [hq] at hok; simp at hok
      | ok d => simp only [List.cons_append, perform_create_bulk, hq, ht, ht2]
    · unfold item_resolution_fails at hfail
      cases hq : process_report db manager_id p.username p.email with
      | ok d => rw [hq] at hfail; simp at hfail
      | error e2 =>
        cases e2 with
        | notFound m2 => simp only [List.cons_append, perform_create_bulk, hq, ht, ht2]
        | validationError s => rw [hq] at hfail; simp at hfail
        | doesNotExist => rw [hq] at hfail; simp at hfail

/-- Helper: a pattern occurs in any list that ends with it. -/
theorem listContainsSub_append_self (pat xs : List Char) :
    listContainsSub pat (xs ++ pat) = true := by
  induction xs with
  | nil =>
    cases pat with
    | nil => rfl
    | cons c t => simp [listContainsSub, List.isPrefixOf_iff_prefix]
  | cons c t ih => simp [listContainsSub, ih]

/-- Helper: a string contains any of its suffixes. -/
theorem strContains_append_self (p s : String) : strContains (p ++ s) s = true := by
  simp [strContains, listContainsSub_append_self]

/-- Claim C9: an absent identifier performs no filtering, for both the
manager filter and the user filter. -/
theorem claim_C9_none_filters_identity (qs : List UserManagerRole) :
    filter_by_manager_id_or_email qs none = qs ∧ filter_by_user_id_or_email qs none = qs :=
  ⟨rfl, rfl⟩

/-- Claim C5: when the managed user equals the registered manager, or the
managed user's email equals the candidate unregistered manager email, saving
raises the self-management `ValidationError` and nothing is persisted (an
error result carries no updated store). -/
theorem claim_C5_self_manager_rejected (store : List UserManagerRole) (r : UserManagerRole)
    (h : r.manager_user = some r.user ∨ r.unregistered_manager_email = some r.user.email) :
    role_save store r = .error "User cannot be own manager" := by
  unfold role_save clean
  rcases h with h | h <;> simp [h]

/-- Witness for C5 at a concrete self-managed record. -/
theorem claim_C5_witness :
    role_save [] ⟨⟨1, "alice", "alice@example.com"⟩, some ⟨1, "alice", "alice@example.com"⟩, none⟩ =
      .error "User cannot be own manager" :=
  claim_C5_self_manager_rejected [] _ (Or.inl rfl)

/-- Counterexample to C3: the model's save-time validation accepts a record
with both `manager_user` and `unregistered_manager_email` set, and also one
with both unset; such records can be persisted. -/
theorem claim_C3_counterexample :
    role_save [] ⟨⟨1, "alice", "alice@example.com"⟩, some ⟨2, "bob", "bob@example.com"⟩,
        some "carol@example.com"⟩ =
      .ok [⟨⟨1, "alice", "alice@example.com"⟩, some ⟨2, "bob", "bob@example.com"⟩,
        some "carol@example.com"⟩] ∧
    role_save [] ⟨⟨1, "alice", "alice@example.com"⟩, none, none⟩ =
      .ok [⟨⟨1, "alice", "alice@example.com"⟩, none, none⟩] := by
  decide

/-- Claim C3 as amended: the save-time validation itself does not enforce the
one-of invariant, but every link record actually built by the create
operations (`process_report` and `UserManagerListView.perform_create`) has
exactly one of `manager_user` / `unregistered_manager_email` set. -/
theorem claim_C3_amended_created_links_exactly_one (db : List User)
    (manager_id : String) (username email : Option String) (path_id manager_email : String) :
    (∀ r, process_report db manager_id username email = .ok r →
      r.manager_user.isSome = !r.unregistered_manager_email.isSome) ∧
    (∀ s, user_manager_perform_create db path_id manager_email = .ok s →
      s.manager_user.isSome = !s.unregistered_manager_email.isSome) := by
  constructor
  · intro r h
    unfold process_report at h
    split at h
    · exact absurd h (by simp)
    · unfold process_report_resolved at h
      split at h
      · exact absurd h (by simp)
      · exact resolve_manager_exactly_one _ _ _ _ h
  · intro s h
    unfold user_manager_perform_create at h
    split at h
    · exact absurd h (by simp)
    · split at h <;> simp_all <;> subst h <;> rfl

/-- Witness for the amended C3 at a concrete unregistered-manager link. -/
theorem claim_C3_amended_witness :
    (⟨⟨1, "alice", "alice@example.com"⟩, none, some "boss@example.com"⟩ :
        UserManagerRole).manager_user.isSome =
      !(⟨⟨1, "alice", "alice@example.com"⟩, none, some "boss@example.com"⟩ :
        UserManagerRole).unregistered_manager_email.isSome :=
  (claim_C3_amended_created_links_exactly_one [⟨1, "alice", "alice@example.com"⟩]
    "boss@example.com" (some "alice") none "alice" "boss@example.com").1 _ (by decide)

/-- Counterexample to C7: with both identifiers absent, `process_report`
fails with a `ValidationError`, but its message is the code's
`A `username` or `email` must be specified` (with backticks), not the
claimed `A username or email must be specified`. -/
theorem claim_C7_counterexample :
    process_report [] "manager" none none ≠
      .error (.validationError "A username or email must be specified") ∧
    process_report [] "manager" none none =
      .error (.validationError "A `username` or `email` must be specified") := by
  decide

/-- Claim C7 as amended: with both the username and the email absent (or
Python-falsy), link building fails with
`ValidationError("A `username` or `email` must be specified")`, and it does so
before any lookup: the result does not depend on the user database or on the
manager identifier. -/
theorem claim_C7_amended_missing_identifier (db db' : List User)
    (manager_id manager_id' : String) (username email : Option String)
    (hu : truthy username = false) (he : truthy email = false) :
    process_report db manager_id username email =
      .error (.validationError "A `username` or `email` must be specified") ∧
    process_report db manager_id username email =
      process_report db' manager_id' username email := by
  have hc : chooseIdentifier email username = none := by
    unfold chooseIdentifier
    simp [he, hu]
  constructor <;> simp [process_report, hc]

/-- Witness for the amended C7 at a concrete empty item. -/
theorem claim_C7_witness :
    process_report [⟨1, "alice", "alice@example.com"⟩] "boss" none (some "") =
      .error (.validationError "A `username` or `email` must be specified") :=
  (claim_C7_amended_missing_identifier _ [] _ "x" none (some "") rfl rfl).1

/-- Claim C10: an empty-string email is Python-falsy and treated as absent:
with a non-empty username the managed user is resolved by that username (the
empty email is never looked up), and with the username also absent or empty
the call fails with the missing-identifier `ValidationError`. -/
theorem claim_C10_empty_email_absent (db : List User) (manager_id : String) :
    (∀ u : String, u.isEmpty = false →
      process_report db manager_id (some u) (some "") =
        process_report_resolved db manager_id u) ∧
    (∀ username : Option String, truthy username = false →
      process_report db manager_id username (some "") =
        .error (.validationError "A `username` or `email` must be specified")) := by
  have h0 : truthy (some "") = false := rfl
  constructor
  · intro u hu
    have h2 : truthy (some u) = true := by simp [truthy, hu]
    have hc : chooseIdentifier (some "") (some u) = some u := by
      simp [chooseIdentifier, h0, h2]
    simp [process_report, hc]
  · intro username hu
    have hc : chooseIdentifier (some "") username = none := by
      simp [chooseIdentifier, h0, hu]
    simp [process_report, hc]

/-- Witness for C10 at a concrete item with an empty email. -/
theorem claim_C10_witness :
    process_report [⟨1, "alice", "alice@example.com"⟩] "boss@example.com"
        (some "alice") (some "") =
      process_report_resolved [⟨1, "alice", "alice@example.com"⟩] "boss@example.com" "alice" :=
  (claim_C10_empty_email_absent _ _).1 "alice" rfl

/-- Claim C4: once the managed user resolves, the manager side behaves as
follows: an `@` identifier with a registered match yields a link with
`manager_user` set to that match; an `@` identifier with no match yields a
link with `unregistered_manager_email` equal to the identifier and no error;
a non-`@` identifier with no username match propagates `User.DoesNotExist`
instead of producing an unregistered-manager record. -/
theorem claim_C4_manager_resolution (db : List User) (manager_id : String)
    (username email : Option String) (ident : String) (u : User)
    (hid : chooseIdentifier email username = some ident)
    (hres : get_user_by_username_or_email db ident = some u) :
    (∀ m, pyIn '@' manager_id = true →
      db.find? (fun x => x.email == manager_id) = some m →
      process_report db manager_id username email = .ok ⟨u, some m, none⟩) ∧
    (pyIn '@' manager_id = true →
      db.find? (fun x => x.email == manager_id) = none →
      process_report db manager_id username email = .ok ⟨u, none, some manager_id⟩) ∧
    (pyIn '@' manager_id = false →
      db.find? (fun x => x.username == manager_id) = none →
      process_report db manager_id username email = .error .doesNotExist) := by
  refine ⟨fun m hat hfind => ?_, fun hat hfind => ?_, fun hat hfind => ?_⟩ <;>
    simp [process_report, hid, process_report_resolved, hres, resolve_manager, hat, hfind]

/-- Witness for C4 at a concrete registered manager email. -/
theorem claim_C4_witness :
    process_report [⟨1, "alice", "alice@example.com"⟩, ⟨2, "boss", "boss@example.com"⟩]
        "boss@example.com" (some "alice") none =
      .ok ⟨⟨1, "alice", "alice@example.com"⟩, some ⟨2, "boss", "boss@example.com"⟩, none⟩ :=
  (claim_C4_manager_resolution _ "boss@example.com" (some "alice") none "alice" _
    (by decide) (by decide)).1 _ (by decide) (by decide)

/-- Claim C8: for a present identifier containing `@`, the manager filter
keeps exactly the records whose registered manager's email equals it or whose
unregistered manager email equals it; for an identifier without `@` it keeps
exactly the records whose registered manager's username equals it, so a
record with an unregistered manager never matches a username-based manager
filter. -/
theorem claim_C8_manager_filter_membership (qs : List UserManagerRole)
    (ident : String) (r : UserManagerRole) :
    (pyIn '@' ident = true →
      (r ∈ filter_by_manager_id_or_email qs (some ident) ↔
        r ∈ qs ∧ ((∃ m, r.manager_user = some m ∧ m.email = ident) ∨
          r.unregistered_manager_email = some ident))) ∧
    (pyIn '@' ident = false →
      (r ∈ filter_by_manager_id_or_email qs (some ident) ↔
        r ∈ qs ∧ ∃ m, r.manager_user = some m ∧ m.username = ident)) ∧
    (r.manager_user = none → pyIn '@' ident = false →
      r ∉ filter_by_manager_id_or_email qs (some ident)) := by
  refine ⟨fun hat => ?_, fun hat => ?_, fun hm hat => ?_⟩ <;>
    cases hm : r.manager_user <;>
      simp_all [filter_by_manager_id_or_email, hat, List.mem_filter, Option.any]

/-- Witness for C8: a record with only an unregistered manager email matches
the `@`-identifier filter. -/
theorem claim_C8_witness :
    (⟨⟨1, "alice", "alice@example.com"⟩, none, some "boss@example.com"⟩ : UserManagerRole) ∈
      filter_by_manager_id_or_email
        [⟨⟨1, "alice", "alice@example.com"⟩, none, some "boss@example.com"⟩]
        (some "boss@example.com") :=
  ((claim_C8_manager_filter_membership _ _ _).1 (by decide)).mpr
    ⟨List.mem_singleton.mpr rfl, Or.inr rfl⟩

/-- Counterexample to C6: the user-not-found failure of
`UserManagerListView.perform_create` carries the fixed message
`No user with that email`, which does not name the offending identifier
(here the unresolvable path identifier `alice`). -/
theorem claim_C6_counterexample :
    user_manager_perform_create [] "alice" "boss@example.com" =
      .error (.notFound "No user with that email") ∧
    strContains "No user with that email" "alice" = false := by
  decide

/-- Claim C6 as amended: the not-found failures raised by `process_report`
name the offending identifier in their `detail` (the message is
`No user with identifier: ` followed by the identifier), but the not-found
failure of `UserManagerListView.perform_create` carries a fixed message that
does not name it. -/
theorem claim_C6_amended_not_found_names_identifier (db : List User)
    (manager_id : String) (username email : Option String) (m : String)
    (h : process_report db manager_id username email = .error (.notFound m)) :
    ∃ ident, chooseIdentifier email username = some ident ∧
      m = "No user with identifier: " ++ ident ∧ strContains m ident = true := by
  obtain ⟨ident, hc, hm⟩ :=
    process_report_notFound_form db manager_id username email m h
  refine ⟨ident, hc, hm, ?_⟩
  rw [hm]
  exact strContains_append_self _ _

/-- Witness for the amended C6 at a concrete unresolvable report identifier. -/
theorem claim_C6_amended_witness :
    ∃ ident, chooseIdentifier none (some "ghost") = some ident ∧
      "No user with identifier: ghost" = "No user with identifier: " ++ ident ∧
      strContains "No user with identifier: ghost" ident = true :=
  claim_C6_amended_not_found_names_identifier [] "m" (some "ghost") none
    "No user with identifier: ghost" (by decide)

/-- Counterexample to C1: a single-item batch whose item resolves (so k is
zero and the claim asserts a 201 response with one result) can still abort:
here the built link makes the managed user their own manager, save-time
validation rejects it, and the whole request fails instead of responding. -/
theorem claim_C1_counterexample :
    item_ok [⟨2, "boss", "boss@example.com"⟩] "boss@example.com" ⟨some "boss", none⟩ = true ∧
    bulk_create [⟨2, "boss", "boss@example.com"⟩] [] "boss@example.com"
        [⟨some "boss", none⟩] =
      .error (.validationError "User cannot be own manager") := by
  decide

/-- Claim C1 as amended: for a bulk request of N items of which k fail user
resolution and the rest resolve, provided persisting the built links does not
fail save-time validation (the request succeeds), the response is 202 when k
is positive and 201 when k is zero, `results` has exactly N minus k entries,
and `errors` has exactly k entries: the failing items' not-found details in
input order, each of the form `No user with identifier: ` followed by that
item's identifier. A save-time invariant violation instead aborts the whole
request with the validation failure. -/
theorem claim_C1_amended_bulk_response_shape (db : List User)
    (store : List UserManagerRole) (manager_id : String) (items : List Item)
    (h : ∀ i ∈ items, item_ok db manager_id i = true ∨
      item_resolution_fails db manager_id i = true)
    (hsucc : ∃ out, bulk_create db store manager_id items = .ok out) :
    ∃ resp store2, bulk_create db store manager_id items = .ok (resp, store2) ∧
      resp.status =
        (if (items.filter (fun i => item_resolution_fails db manager_id i)).length = 0
          then 201 else 202) ∧
      resp.results.length =
        items.length - (items.filter (fun i => item_resolution_fails db manager_id i)).length ∧
      resp.errors.length =
        (items.filter (fun i => item_resolution_fails db manager_id i)).length ∧
      resp.errors = (items.filter (fun i => item_resolution_fails db manager_id i)).map
        (item_error_detail db manager_id) ∧
      ∀ i ∈ items.filter (fun i => item_resolution_fails db manager_id i),
        ∃ ident, chooseIdentifier i.email i.username = some ident ∧
          item_error_detail db manager_id i = "No user with identifier: " ++ ident := by
  obtain ⟨rs, heq, hrs⟩ := perform_create_bulk_ok db manager_id items h
  have hsum := filter_partition db manager_id items h
  obtain ⟨out, hout⟩ := hsucc
  cases hcr : create_reports store rs with
  | error m =>
    have hbc : bulk_create db store manager_id items = .error (.validationError m) := by
      simp only [bulk_create, heq, hcr]
    rw [hbc] at hout
    exact absurd hout (by simp)
  | ok store2 =>
    refine ⟨⟨if ((items.filter (fun i => item_resolution_fails db manager_id i)).map
        (item_error_detail db manager_id)).isEmpty then 201 else 202, rs,
        (items.filter (fun i => item_resolution_fails db manager_id i)).map
          (item_error_detail db manager_id)⟩,
      store2, ?_, ?_, ?_, ?_, rfl, ?_⟩
    · simp only [bulk_create, heq, hcr]
    · cases hf : items.filter (fun i => item_resolution_fails db manager_id i) with
      | nil => simp [hf]
      | cons a t => simp [hf]
    · simp only [List.length_map]
      omega
    · simp only [List.length_map]
    · intro i hi
      exact item_error_detail_form db manager_id i (List.mem_filter.mp hi).2

/-- Witness for the amended C1: a two-item batch where the second item's
identifier does not resolve persists one link and yields a 202 with one
result and the one not-found error naming that identifier. -/
theorem claim_C1_witness :
    ∃ resp store2,
      bulk_create [⟨1, "alice", "alice@example.com"⟩, ⟨2, "boss", "boss@example.com"⟩] []
          "boss@example.com" [⟨some "alice", none⟩, ⟨none, some "ghost@example.com"⟩] =
        .ok (resp, store2) ∧
      resp.status = 202 ∧ resp.results.length = 1 ∧ resp.errors.length = 1 ∧
      resp.errors = ["No user with identifier: ghost@example.com"] := by
  obtain ⟨resp, store2, h1, h2, h3, h4, h5, h6⟩ :=
    claim_C1_amended_bulk_response_shape
      [⟨1, "alice", "alice@example.com"⟩, ⟨2, "boss", "boss@example.com"⟩] []
      "boss@example.com" [⟨some "alice", none⟩, ⟨none, some "ghost@example.com"⟩]
      (by decide)
      ⟨(⟨202,
          [⟨⟨1, "alice", "alice@example.com"⟩, some ⟨2, "boss", "boss@example.com"⟩, none⟩],
          ["No user with identifier: ghost@example.com"]⟩,
        [⟨⟨1, "alice", "alice@example.com"⟩, some ⟨2, "boss", "boss@example.com"⟩, none⟩]),
        by decide⟩
  refine ⟨resp, store2, h1, ?_, ?_, ?_, ?_⟩
  · rw [h2]; decide
  · rw [h3]; decide
  · rw [h4]; decide
  · rw [h5]; decide

/-- Claim C2: in bulk mode exactly the not-found failure is caught per item:
an item whose `process_report` raises `NotFound` contributes its detail to
the error list while processing continues, whereas an item that raises any
other failure (after a prefix of items that each resolve or fail with
not-found) aborts the whole request with that failure. -/
theorem claim_C2_bulk_error_policy (db : List User) (manager_id : String) :
    (∀ (item : Item) (rest : List Item) (m : String) (rs : List UserManagerRole)
        (es : List String),
      process_report db manager_id item.username item.email = .error (.notFound m) →
      perform_create_bulk db manager_id rest = .ok (rs, es) →
      perform_create_bulk db manager_id (item :: rest) = .ok (rs, m :: es)) ∧
    (∀ (store : List UserManagerRole) (pre : List Item) (item : Item)
        (rest : List Item) (e : Err),
      (∀ p ∈ pre, item_ok db manager_id p = true ∨
        item_resolution_fails db manager_id p = true) →
      process_report db manager_id item.username item.email = .error e →
      (∀ m, e ≠ .notFound m) →
      bulk_create db store manager_id (pre ++ item :: rest) = .error e) := by
  constructor
  · intro item rest m rs es hp heq
    simp only [perform_create_bulk, hp, heq]
  · intro store pre item rest e hpre hp hne
    have hbase : perform_create_bulk db manager_id (item :: rest) = .error e := by
      cases e with
      | notFound m => exact absurd rfl (hne m)
      | validationError s => simp only [perform_create_bulk, hp]
      | doesNotExist => simp only [perform_create_bulk, hp]
    have hprop := perform_create_bulk_append_error db manager_id (item :: rest) e hbase pre hpre
    simp [bulk_create, hprop]

/-- Witness for C2: a batch whose second item has neither username nor email
aborts with the missing-identifier `ValidationError` even though the first
item resolves. -/
theorem claim_C2_witness :
    bulk_create [⟨1, "alice", "alice@example.com"⟩] [] "boss@example.com"
        ([⟨some "alice", none⟩] ++ ⟨none, none⟩ :: []) =
      .error (.validationError "A `username` or `email` must be specified") :=
  (claim_C2_bulk_error_policy _ _).2 [] [⟨some "alice", none⟩] ⟨none, none⟩ [] _
    (by decide) (by decide) (fun m h => Err.noConfusion h)

end UserManager
